import Mathlib

/-!
Stub librustdesk (src/stub.c).

A shallow embedding of the six functions exported by the stub shared library,
together with a small harness that runs finite sequences of calls, and the
properties of the library that follow from the code.

Conventions of the embedding

* `void*` is `Ptr` (`Ptr.null` is `NULL`).
* `const char*` is `CStr = Option String` (`none` is `NULL`, `some s` points to
  the NUL-terminated text `s`).
* `int` is `Int`; the only `int` the library produces is the literal `-1`, so no
  wrap-around arises. Theorems quantify over all of `Int`, which contains every
  32-bit `int`.
* A C function is a state transformer on `World`, the memory the process shares
  with the library. stub.c declares no file-scope object and no function body
  reads or writes through a pointer, so every function hands the world back as
  it received it.
-/

set_option linter.unusedVariables false

namespace RustdeskStub

/-- Value of a C object pointer (`void*`): null or an address. -/
inductive Ptr where
  | null : Ptr
  | addr (a : Nat) : Ptr
  deriving DecidableEq, Repr

/-- Value of a `const char*`: `none` is the null pointer, `some s` a pointer to
the NUL-terminated text `s`. -/
abbrev CStr := Option String

/-- Process memory visible to the library: a finite map from addresses to byte
values, kept as an association list. -/
structure World where
  heap : List (Nat × Nat)
  deriving DecidableEq, Repr

/-- The function `void* rustdesk_init()` of stub.c, lines 9-11: `return NULL;`. -/
def rustdesk_init (w : World) : World × Ptr :=
  (w, Ptr.null)

/-- The function `void rustdesk_cleanup(void* handle)` of stub.c, lines 13-15:
the body is empty. -/
def rustdesk_cleanup (handle : Ptr) (w : World) : World :=
  w

/-- The function `const char* rustdesk_get_version()` of stub.c, lines 17-19:
`return "1.4.4-stub";`. -/
def rustdesk_get_version (w : World) : World × CStr :=
  (w, some "1.4.4-stub")

/-- The function `int rustdesk_start_session(const char* id)` of stub.c, lines
21-23: `return -1;`. -/
def rustdesk_start_session (id : CStr) (w : World) : World × Int :=
  (w, -1)

/-- The function `void rustdesk_stop_session(int session_id)` of stub.c, lines
25-27: the body is empty. -/
def rustdesk_stop_session (session_id : Int) (w : World) : World :=
  w

/-- The function `const char* rustdesk_get_error()` of stub.c, lines 29-31:
`return "Stub implementation - Rust library not built";`. -/
def rustdesk_get_error (w : World) : World × CStr :=
  (w, some "Stub implementation - Rust library not built")

/-! ## Call sequences -/

/-- The six exported symbols. -/
inductive Export where
  | init | cleanup | get_version | start_session | stop_session | get_error
  deriving DecidableEq, Repr

/-- One call made by the host application: an exported function together with
its actual arguments. -/
inductive Call where
  | init : Call
  | cleanup (handle : Ptr) : Call
  | get_version : Call
  | start_session (id : CStr) : Call
  | stop_session (session_id : Int) : Call
  | get_error : Call
  deriving DecidableEq, Repr

/-- The exported function a call is made to. -/
def Call.target : Call → Export
  | .init => .init
  | .cleanup _ => .cleanup
  | .get_version => .get_version
  | .start_session _ => .start_session
  | .stop_session _ => .stop_session
  | .get_error => .get_error

/-- What a call hands back to the host: a pointer, a string, an `int`, or
nothing (`void`). -/
inductive Ret where
  | ptr (p : Ptr) : Ret
  | str (s : CStr) : Ret
  | int (n : Int) : Ret
  | void : Ret
  deriving DecidableEq, Repr

/-- Perform one call in world `w`: dispatch to the embedded function. -/
def call (c : Call) (w : World) : World × Ret :=
  match c with
  | .init => ((rustdesk_init w).1, Ret.ptr (rustdesk_init w).2)
  | .cleanup handle => (rustdesk_cleanup handle w, Ret.void)
  | .get_version => ((rustdesk_get_version w).1, Ret.str (rustdesk_get_version w).2)
  | .start_session id =>
      ((rustdesk_start_session id w).1, Ret.int (rustdesk_start_session id w).2)
  | .stop_session session_id => (rustdesk_stop_session session_id w, Ret.void)
  | .get_error => ((rustdesk_get_error w).1, Ret.str (rustdesk_get_error w).2)

/-- Perform a finite sequence of calls, first to last, threading the world
through; returns the final world and the value returned by each call. -/
def run : List Call → World → World × List Ret
  | [], w => (w, [])
  | c :: cs, w => ((run cs (call c w).1).1, (call c w).2 :: (run cs (call c w).1).2)

/-- The world with nothing mapped. -/
def emptyWorld : World := ⟨[]⟩

/-! ## Helper lemmas -/

theorem call_world (c : Call) (w : World) : (call c w).1 = w := by
  cases c <;> rfl

theorem run_world (cs : List Call) (w : World) : (run cs w).1 = w := by
  induction cs generalizing w with
  | nil => rfl
  | cons c cs ih => simp only [run, call_world, ih]

theorem run_results (cs : List Call) (w : World) :
    (run cs w).2 = cs.map (fun c => (call c w).2) := by
  induction cs generalizing w with
  | nil => rfl
  | cons c cs ih => simp only [run, call_world, ih, List.map_cons]

theorem call_result_of_target (c c' : Call) (w w' : World)
    (h : c.target = c'.target) : (call c w).2 = (call c' w').2 := by
  cases c <;> cases c' <;> first | rfl | cases h

/-! ## Properties of the exported functions -/

/-- C1: rustdesk_start_session always fails. For every argument id (a non-empty
string, the empty string, or the null pointer), in every world and after every
sequence of earlier calls, it returns the error code -1, and the value it
returns is never a non-negative session identifier. -/
theorem start_session_always_fails (id : CStr) (pre : List Call) (w : World) :
    (rustdesk_start_session id (run pre w).1).2 = -1 ∧
      ¬ 0 ≤ (rustdesk_start_session id (run pre w).1).2 := by
  constructor
  · rfl
  · show ¬ (0 : Int) ≤ -1
    decide

/-- C2: results depend neither on the arguments nor on the call history. In
every finite sequence of calls to the six exported functions, the value
returned by the call at any position equals the value returned by a call to the
same function, with arbitrary other arguments, made as the very first call. -/
theorem results_independent_of_args_and_history (w : World) (cs : List Call)
    (i : Nat) (c c' : Call) (hi : cs[i]? = some c) (hf : c.target = c'.target) :
    (run cs w).2[i]? = some (call c' w).2 := by
  rw [run_results, List.getElem?_map, hi]
  simp only [Option.map_some']
  rw [call_result_of_target c c' w w hf]

/-- Instance of C2: the fourth call of a mixed sequence, a start_session on the
null pointer, returns what a first start_session on "peer-42" returns. -/
theorem results_independent_of_args_and_history_witness :
    [Call.init, Call.start_session (some "a"), Call.cleanup Ptr.null,
        Call.start_session none][3]? = some (Call.start_session none) ∧
      (Call.start_session none).target = (Call.start_session (some "peer-42")).target ∧
      (run [Call.init, Call.start_session (some "a"), Call.cleanup Ptr.null,
        Call.start_session none] emptyWorld).2[3]? =
        some (call (Call.start_session (some "peer-42")) emptyWorld).2 :=
  ⟨rfl, rfl,
    results_independent_of_args_and_history emptyWorld
      [Call.init, Call.start_session (some "a"), Call.cleanup Ptr.null,
        Call.start_session none] 3 (Call.start_session none)
      (Call.start_session (some "peer-42")) rfl rfl⟩

/-- C3: rustdesk_get_error never fails. In every world and after every sequence
of earlier calls (none at all, a failed rustdesk_start_session, a
rustdesk_stop_session, a rustdesk_cleanup, ...) it returns a non-null string,
namely the placeholder text "Stub implementation - Rust library not built". -/
theorem get_error_returns_placeholder (pre : List Call) (w : World) :
    (rustdesk_get_error (run pre w).1).2 ≠ none ∧
      (rustdesk_get_error (run pre w).1).2 =
        some "Stub implementation - Rust library not built" := by
  constructor
  · intro h
    cases h
  · rfl

/-- C4: rustdesk_get_version takes no input and returns a static version
string. In every world and after every sequence of earlier calls it returns the
same non-empty string "1.4.4-stub". -/
theorem get_version_static (pre : List Call) (w : World) :
    (rustdesk_get_version (run pre w).1).2 = some "1.4.4-stub" ∧
      (∃ s : String, (rustdesk_get_version (run pre w).1).2 = some s ∧ 0 < s.length) := by
  refine ⟨rfl, "1.4.4-stub", rfl, ?_⟩
  decide

/-- C5, as stated, fails on the code: the handle returned by rustdesk_init in
the empty world is the null pointer, so it is not a valid (non-null) handle. -/
theorem init_returns_non_null_fails :
    ¬ ((rustdesk_init emptyWorld).2 ≠ Ptr.null) := by
  decide

/-- C5, amended: rustdesk_init never fails to return, but it issues no runtime
handle. In every world and after every sequence of earlier calls it returns the
null pointer and leaves the world as it found it. -/
theorem init_returns_null (pre : List Call) (w : World) :
    (rustdesk_init (run pre w).1).2 = Ptr.null ∧
      (rustdesk_init (run pre w).1).1 = (run pre w).1 :=
  ⟨rfl, rfl⟩

/-- C6, as stated, fails on the code: "peer-42" is a non-empty peer identifier,
yet the first start_session after init returns a negative value, not the
SessionId 1. -/
theorem start_session_peer42_not_one :
    "peer-42" ≠ "" ∧
      ¬ (0 ≤ (rustdesk_start_session (some "peer-42") (rustdesk_init emptyWorld).1).2 ∧
        (rustdesk_start_session (some "peer-42") (rustdesk_init emptyWorld).1).2 = 1) := by
  decide

/-- C6, amended: for every non-empty peer identifier, after every sequence of
earlier calls (so also right after rustdesk_init), rustdesk_start_session
returns the error code -1 and no SessionId. -/
theorem start_session_nonempty_returns_error (s : String) (hs : s ≠ "")
    (pre : List Call) (w : World) :
    (rustdesk_start_session (some s) (run pre w).1).2 = -1 :=
  rfl

/-- Instance of the amended C6: the first start_session with "peer-42" on a
freshly initialised library returns -1. -/
theorem start_session_nonempty_returns_error_witness :
    "peer-42" ≠ "" ∧
      (rustdesk_start_session (some "peer-42") (run [Call.init] emptyWorld).1).2 = -1 :=
  ⟨by decide,
    start_session_nonempty_returns_error "peer-42" (by decide) [Call.init] emptyWorld⟩

/-- C7, as stated, fails on the code: "alice" and "bob" are distinct peer
identifiers, yet start_session on "alice" followed by start_session on "bob"
returns the same value twice. -/
theorem start_session_distinct_peers_same_result :
    some "alice" ≠ (some "bob" : CStr) ∧
      ¬ ((rustdesk_start_session (some "alice") emptyWorld).2 ≠
        (rustdesk_start_session (some "bob")
          (rustdesk_start_session (some "alice") emptyWorld).1).2) := by
  decide

/-- C7, amended: for every two distinct peer identifiers a and b, start_session
on a followed by start_session on b returns the same value both times, the
error code -1; no session identifiers are issued. -/
theorem start_session_twice_both_error (a b : CStr) (hab : a ≠ b) (w : World) :
    (run [Call.start_session a, Call.start_session b] w).2 =
        [Ret.int (-1), Ret.int (-1)] ∧
      (rustdesk_start_session a w).2 =
        (rustdesk_start_session b (rustdesk_start_session a w).1).2 :=
  ⟨rfl, rfl⟩

/-- Instance of the amended C7 at the peer identifiers "alice" and "bob". -/
theorem start_session_twice_both_error_witness :
    some "alice" ≠ (some "bob" : CStr) ∧
      (run [Call.start_session (some "alice"), Call.start_session (some "bob")]
          emptyWorld).2 = [Ret.int (-1), Ret.int (-1)] ∧
      (rustdesk_start_session (some "alice") emptyWorld).2 =
        (rustdesk_start_session (some "bob")
          (rustdesk_start_session (some "alice") emptyWorld).1).2 :=
  ⟨by decide,
    start_session_twice_both_error (some "alice") (some "bob") (by decide) emptyWorld⟩

/-- C8: rustdesk_stop_session is safe and idempotent on any identifier. For
every int session_id (negative values, the -1 returned by
rustdesk_start_session and identifiers never issued included) and every world,
the call returns with the world unchanged, a second call has the same effect as
the first alone (on the world and on the results of every later call sequence),
and rustdesk_get_error returns the same text after the call as before it. -/
theorem stop_session_safe_idempotent (session_id : Int) (w : World)
    (post : List Call) :
    rustdesk_stop_session session_id w = w ∧
      rustdesk_stop_session session_id (rustdesk_stop_session session_id w) =
        rustdesk_stop_session session_id w ∧
      (run post (rustdesk_stop_session session_id (rustdesk_stop_session session_id w))).2 =
        (run post (rustdesk_stop_session session_id w)).2 ∧
      (rustdesk_get_error (rustdesk_stop_session session_id w)).2 =
        (rustdesk_get_error w).2 :=
  ⟨rfl, rfl, rfl, rfl⟩

/-- What the stub does on start_session followed at once by stop_session on
the returned value: the returned value is -1, no session comes into being, and
the world after both calls is the world before them. -/
theorem start_then_stop_leaves_world (id : CStr) (w : World) :
    (rustdesk_start_session id w).2 = -1 ∧
      rustdesk_stop_session (rustdesk_start_session id w).2
        (rustdesk_start_session id w).1 = w :=
  ⟨rfl, rfl⟩

/-- C10: rustdesk_cleanup is a total no-op on every handle value. For every
pointer handle (null, mapped or dangling) and every world, the call returns
with the world unchanged, whatever the heap holds at the handle; so
cleanup(init()) and a repeated cleanup of the same handle leave the world as it
was, and every other call returns the same value and leaves the same world
after a cleanup as without it. -/
theorem cleanup_total_noop (handle : Ptr) (w : World) (c : Call)
    (post : List Call) :
    rustdesk_cleanup handle w = w ∧
      rustdesk_cleanup (rustdesk_init w).2 (rustdesk_init w).1 = w ∧
      rustdesk_cleanup handle (rustdesk_cleanup handle w) = w ∧
      call c (rustdesk_cleanup handle w) = call c w ∧
      (run post (rustdesk_cleanup handle (rustdesk_cleanup handle w))).2 =
        (run post w).2 :=
  ⟨rfl, rfl, rfl, rfl, rfl⟩

end RustdeskStub
